import Mathlib

/-
Shallow embedding of pyrobud/modules/antibot.py (the Antibot module).

The module is a spam-detection engine for chat groups.  Its persistent
state lives in a namespaced async key-value store; the store is modelled
here as an association list of string keys to values.  The heuristics and
handlers become pure functions of the store, the message or event, and
the data returned by the remote lookups (participant record, full profile,
nostril pronounceability test), which are passed in as parameters.
-/

namespace Antibot

/-! ## Store model -/

/-- Values held in the key-value store.  Python ints and bools; Python
treats bools as ints, so conversions below mirror that. -/
inductive DBVal
  | b (v : Bool)
  | i (v : Int)
deriving DecidableEq, Repr

def dbValToInt : DBVal → Int
  | .b v => if v then 1 else 0
  | .i v => v

def dbValToBool : DBVal → Bool
  | .b v => v
  | .i v => decide (v ≠ 0)

/-- The root key-value store, an association list (first match wins). -/
def Store := List (String × DBVal)

instance : DecidableEq Store := by
  unfold Store
  infer_instance

def dbGet (s : Store) (k : String) : Option DBVal :=
  (s.find? (fun kv => kv.1 == k)).map (fun kv => kv.2)

def dbDelete (s : Store) (k : String) : Store :=
  s.filter (fun kv => !(kv.1 == k))

def dbPut (s : Store) (k : String) (v : DBVal) : Store :=
  (k, v) :: dbDelete s k

/-- db.get with a default, Python-truthiness coerced to an int. -/
def intGetD (o : Option DBVal) (d : Int) : Int :=
  match o with
  | some v => dbValToInt v
  | none => d

/-- db.get with a default, Python-truthiness coerced to a bool. -/
def boolGetD (o : Option DBVal) (d : Bool) : Bool :=
  match o with
  | some v => dbValToBool v
  | none => d

/-! ## Key construction

The module uses a root db plus two prefixed sub-dbs: group_db with key
space "groups." and user_db with key space "users.".  Sub-db keys are
stored in the root with the namespace glued on the front. -/

def group_key (k : String) : String := "groups." ++ k

def user_key (k : String) : String := "users." ++ k

def enabled_key (chat_id : Int) : String :=
  group_key (toString chat_id ++ ".enabled")

def enable_time_key (chat_id : Int) : String :=
  group_key (toString chat_id ++ ".enable_time")

def flag_key (user_id chat_id : Int) : String :=
  user_key (toString user_id ++ ".has_spoken_in_" ++ toString chat_id)

/-! ## Message / user / participant data model -/

/-- Telegram entity classes relevant to the checks. -/
inductive MsgEntity
  | url
  | textUrl
  | email
  | phone
  | other
deriving DecidableEq, Repr

structure Msg where
  out : Bool
  date : Option Int
  forward : Bool
  photo : Bool
  raw_text : Option String
  entities : List MsgEntity
  sender_id : Int
  chat_id : Int
  is_group : Bool
deriving DecidableEq, Repr

structure AdminRights where
  delete_messages : Bool
  ban_users : Bool
deriving DecidableEq, Repr

/-- The participant record returned by GetParticipantRequest.  The
creator record carries no join date; admins and plain members carry the
date field used by the timing check. -/
inductive Participant
  | creator
  | admin (admin_rights : AdminRights) (date : Int)
  | member (date : Int)
deriving DecidableEq, Repr

def Participant.joinDate : Participant → Option Int
  | .creator => none
  | .admin _ d => some d
  | .member d => some d

structure User where
  username : Option String
  first_name : Option String
  last_name : Option String
  photo : Bool
  id : Int
deriving DecidableEq, Repr

/-! ## Content heuristics -/

def suspicious_keywords : List String :=
  ["invest", "profit", "binance", "binanse", "bitcoin", "testnet", "bitmex"]

def suspicious_entities : List MsgEntity :=
  [.url, .textUrl, .email, .phone]

def suspicious_first_names : List String :=
  ["announcement", "info", "urgent", "limited", "holiday", "verified",
   "solidified", "recommended", "temporarily"]

/-- Does the character list pat occur at the head of l? -/
def charsStartWith : List Char → List Char → Bool
  | [], _ => true
  | _ :: _, [] => false
  | a :: as, b :: bs => a == b && charsStartWith as bs

/-- Does the character list pat occur anywhere in l? -/
def charsContain (pat : List Char) : List Char → Bool
  | [] => pat.isEmpty
  | b :: bs => charsStartWith pat (b :: bs) || charsContain pat bs

/-- Does the character list l end with the character list suf? -/
def charsEndWith (suf l : List Char) : Bool :=
  charsStartWith suf.reverse l.reverse

/-- Python substring test: pat in s. -/
def str_contains (s pat : String) : Bool :=
  charsContain pat.data s.data

def msg_has_suspicious_entity (msg : Msg) : Bool :=
  match msg.entities with
  | [] => false
  | es => es.any (fun e => suspicious_entities.contains e)

def msg_has_suspicious_keyword (msg : Msg) : Bool :=
  match msg.raw_text with
  | none => false
  | some t =>
    if t.isEmpty then false
    else suspicious_keywords.any (fun kw => str_contains t.toLower kw)

def msg_content_suspicious (msg : Msg) : Bool :=
  msg_has_suspicious_entity msg || msg_has_suspicious_keyword msg

/-! ## Timing heuristics -/

def msg_data_is_suspicious (msg : Msg) : Bool :=
  let incoming := !msg.out
  match incoming, msg.date with
  | true, some _ => (msg.forward && msg.photo) || msg_content_suspicious msg
  | _, _ => false

/-- db.get of the threshold_time key in the root namespace, default 30. -/
def getThreshold (s : Store) : Int :=
  intGetD (dbGet s "threshold_time") 30

/-- group_db.get of the enable_time key, no default: none models the
Python None which makes the subsequent comparison raise. -/
def getEnableTime (s : Store) (chat_id : Int) : Option Int :=
  (dbGet s (enable_time_key chat_id)).map dbValToInt

/-- user_db.get of the has-spoken flag, default False. -/
def hasSpoken (s : Store) (user_id chat_id : Int) : Bool :=
  boolGetD (dbGet s (flag_key user_id chat_id)) false

/-- The timing branch of msg_is_suspicious, entered for non-creator
senders.  jd is the join date from the participant record.  Returns none
where the Python code would raise (missing date or enable_time). -/
def msg_timing_check (s : Store) (msg : Msg) (jd : Int) : Option Bool :=
  match msg.date with
  | none => none
  | some d =>
    if d - jd ≤ getThreshold s then some true
    else
      match getEnableTime s msg.chat_id with
      | none => none
      | some et =>
        if jd > et then
          if !(hasSpoken s msg.sender_id msg.chat_id) then some true
          else some false
        else some false

/-- The primary message-level verdict.  The participant record fetched
for the sender is passed in; none models a raised exception. -/
def msg_is_suspicious (s : Store) (msg : Msg) (p : Participant) : Option Bool :=
  if !(msg_data_is_suspicious msg) then some false
  else
    match p with
    | .creator => some false
    | .admin _ jd => msg_timing_check s msg jd
    | .member jd => msg_timing_check s msg jd

/-! ## Profile heuristics -/

def ascii_uppercase : String := "ABCDEFGHIJKLMNOPQRSTUVWXYZ"

def ascii_lowercase : String := "abcdefghijklmnopqrstuvwxyz"

/-- profile_check_nonsense.  about is the bio presence from the fetched
full profile; nons is the nostril.nonsense result on the username, none
modelling a raised ValueError. -/
def profile_check_nonsense (u : User) (about : Bool) (nons : Option Bool) : Bool :=
  match u.username with
  | some un =>
    if !un.isEmpty && (10 ≤ un.length && un.length ≤ 12) then
      match un.data with
      | [] => false
      | c0 :: rest =>
        if !(ascii_uppercase.data.contains c0) then false
        else if !(rest.all fun c => ascii_lowercase.data.contains c) then false
        else if u.photo then false
        else if about then false
        else
          match nons with
          | some b => if !b then false else true
          | none => true
    else false
  | none => false

/-- profile_check_crypto.  Accesses first_name unconditionally; a missing
first name raises, modelled as an error. -/
def profile_check_crypto (u : User) : Except String Bool :=
  match u.first_name with
  | none => .error "AttributeError: NoneType object has no attribute lower"
  | some fn =>
    if suspicious_first_names.contains fn.toLower then .ok true
    else if str_contains fn "t.me" ||
        (match u.last_name with
         | some ln => !ln.isEmpty && str_contains ln "t.me"
         | none => false) then .ok true
    else .ok false

def user_is_suspicious (u : User) (about : Bool) (nons : Option Bool) :
    Except String Bool :=
  if profile_check_nonsense u about nons then .ok true
  else
    match profile_check_crypto u with
    | .error e => .error e
    | .ok true => .ok true
    | .ok false => .ok false

/-! ## Dispatcher, lifecycle -/

def is_enabled (s : Store) (is_group : Bool) (chat_id : Int) : Bool :=
  is_group && boolGetD (dbGet s (enabled_key chat_id)) false

/-- Outcome of handling one inbound message. -/
inductive MsgOutcome
  | action (user_id : Int)
  | spoke
  | skip
  | err
deriving DecidableEq, Repr

/-- on_message: in an enabled group, a suspicious message triggers
take_action on its sender (no store write); otherwise the has-spoken
flag is persisted. -/
def on_message (s : Store) (msg : Msg) (p : Participant) : MsgOutcome × Store :=
  if is_enabled s msg.is_group msg.chat_id then
    match msg_is_suspicious s msg p with
    | some true => (.action msg.sender_id, s)
    | some false => (.spoke, dbPut s (flag_key msg.sender_id msg.chat_id) (.b true))
    | none => (.err, s)
  else (.skip, s)

/-- The condition under which the first pass of clear_group deletes a
root key: it is a group_db key whose sub-db key starts with the group id
followed by a dot. -/
def isGroupKeyOf (group_id : Int) (k : String) : Bool :=
  charsStartWith ("groups.").data k.data &&
    charsStartWith (toString group_id ++ ".").data (k.data.drop 7)

/-- The condition under which the second pass of clear_group deletes a
root key: it is a user_db key whose sub-db key ends with the has-spoken
suffix for this group id. -/
def isFlagKeyOf (group_id : Int) (k : String) : Bool :=
  charsStartWith ("users.").data k.data &&
    charsEndWith (".has_spoken_in_" ++ toString group_id).data (k.data.drop 6)

/-- clear_group: first deletes every group_db key under the group prefix,
then every user_db key carrying the has-spoken suffix for this group. -/
def clear_group (s : Store) (group_id : Int) : Store :=
  let s1 := s.filter (fun kv => !(isGroupKeyOf group_id kv.1))
  s1.filter (fun kv => !(isFlagKeyOf group_id kv.1))

structure ChatAction where
  user_left : Bool
  user_added : Bool
  user_joined : Bool
  user_id : Int
  chat_id : Int
  is_group : Bool
deriving DecidableEq, Repr

/-- The store effect of on_chat_action.  The joiner-filtering branch
performs remote checks and possibly take_action but never writes the
store, so store-wise it is the identity. -/
def on_chat_action_state (s : Store) (a : ChatAction) (bot_uid : Int) : Store :=
  if a.user_left && is_enabled s a.is_group a.chat_id then
    let s1 := dbDelete s (flag_key a.user_id a.chat_id)
    if a.user_id == bot_uid then clear_group s1 a.chat_id else s1
  else s

structure CmdMsg where
  is_group : Bool
  is_channel : Bool
  chat_id : Int
deriving DecidableEq, Repr

/-- cmd_antibot: toggles the feature in a supergroup.  ptcp is the
participant record of the bot itself ("me"); now is util.time.sec().
Returns the reply string and the updated store. -/
def cmd_antibot (s : Store) (m : CmdMsg) (ptcp : Participant) (now : Int) :
    String × Store :=
  if !m.is_group then ("__Antibot can only be used in groups.__", s)
  else if !m.is_channel then
    ("__Please convert this group to a supergroup in order to enable antibot.__", s)
  else
    let state := !(boolGetD (dbGet s (enabled_key m.chat_id)) false)
    if state then
      match ptcp with
      | .creator =>
        let s1 := dbPut s (enabled_key m.chat_id) (.b true)
        let s2 := dbPut s1 (enable_time_key m.chat_id) (.i now)
        ("Antibot is now **enabled** in this group.", s2)
      | .admin r _ =>
        if !r.delete_messages || !r.ban_users then
          ("__Antibot requires the **Delete Messages** and **Ban users** permissions.__", s)
        else
          let s1 := dbPut s (enabled_key m.chat_id) (.b true)
          let s2 := dbPut s1 (enable_time_key m.chat_id) (.i now)
          ("Antibot is now **enabled** in this group.", s2)
      | .member _ =>
        ("__I must be an admin with the **Delete Messages** and **Ban users** permissions for antibot to work.__", s)
    else
      (("Antibot is now **disabled** in this group."), clear_group s m.chat_id)

/-- The permission requirement the claim describes for toggle-on:
creator, or admin with both delete-messages and ban-users rights. -/
def bot_can_enable : Participant → Bool
  | .creator => true
  | .admin r _ => r.delete_messages && r.ban_users
  | .member _ => false

/-- A store is purged of a group when no entry matches either deletion
condition of clear_group: no group-namespace key under the group prefix
and no users-namespace has-spoken flag referencing the group id. -/
def purged (s : Store) (group_id : Int) : Bool :=
  s.all (fun kv => !(isGroupKeyOf group_id kv.1) && !(isFlagKeyOf group_id kv.1))

/-! ## Concrete inputs used by the witnesses and the counterexample -/

/-- A forwarded photo message from user 7 in group 5, sent 10 seconds
after a join at time 1000. -/
def exMsgC1 : Msg :=
  { out := false, date := some 1010, forward := true, photo := true,
    raw_text := none, entities := [], sender_id := 7, chat_id := 5,
    is_group := true }

/-- Same message shape but sent 100 seconds after the join. -/
def exMsgC2 : Msg := { exMsgC1 with date := some 1100 }

/-- Group 5 enabled with enable_time 1000, equal to the join time. -/
def exStoreC2 : Store :=
  [("groups.5.enabled", DBVal.b true), ("groups.5.enable_time", DBVal.i 1000)]

/-- Group 5 enabled with enable_time 900, strictly before the join. -/
def exStoreC2b : Store :=
  [("groups.5.enabled", DBVal.b true), ("groups.5.enable_time", DBVal.i 900)]

/-- A user whose 10-character username passes every shape gate. -/
def exUserC3 : User :=
  { username := some "Abcdefghij", first_name := some "Bob",
    last_name := none, photo := false, id := 3 }

/-- A user with no username and no first name. -/
def exUserC10 : User :=
  { username := none, first_name := none, last_name := none,
    photo := false, id := 4 }

def exCmdMsg : CmdMsg := { is_group := true, is_channel := true, chat_id := 5 }

/-- Group 5 fully populated: both group keys plus a has-spoken flag for
group 5 and one for an unrelated group 9. -/
def exStoreC5 : Store :=
  [("groups.5.enabled", DBVal.b true), ("groups.5.enable_time", DBVal.i 1000),
   ("users.7.has_spoken_in_5", DBVal.b true),
   ("users.8.has_spoken_in_9", DBVal.b true)]

/-- The bot itself (uid 42) leaving group 5. -/
def exActionC5 : ChatAction :=
  { user_left := true, user_added := false, user_joined := false,
    user_id := 42, chat_id := 5, is_group := true }

/-! ## Store lemmas -/

theorem dbGet_dbDelete_ne (s : Store) (k k2 : String) (h : ¬(k = k2)) :
    dbGet (dbDelete s k2) k = dbGet s k := by
  induction s with
  | nil => rfl
  | cons kv t ih =>
    by_cases h2 : kv.1 = k2
    · have hk : ¬(kv.1 = k) := by
        intro hc
        exact h (by rw [← hc, h2])
      simp only [dbDelete, dbGet]
      rw [List.filter_cons_of_neg (by simp [h2])]
      rw [List.find?_cons_of_neg _ (by simp [hk])]
      exact ih
    · simp only [dbDelete, dbGet] at *
      rw [List.filter_cons_of_pos (by simp [h2])]
      by_cases h3 : kv.1 = k
      · rw [List.find?_cons_of_pos _ (by simp [h3]),
          List.find?_cons_of_pos _ (by simp [h3])]
      · rw [List.find?_cons_of_neg _ (by simp [h3]),
          List.find?_cons_of_neg _ (by simp [h3])]
        exact ih

theorem dbGet_dbPut_self (s : Store) (k : String) (v : DBVal) :
    dbGet (dbPut s k v) k = some v := by
  simp [dbPut, dbGet, List.find?]

theorem dbGet_dbPut_ne (s : Store) (k k2 : String) (v : DBVal) (h : ¬(k = k2)) :
    dbGet (dbPut s k2 v) k = dbGet s k := by
  have hk : (k2 == k) = false := by
    simp only [beq_eq_false_iff_ne, ne_eq]
    intro hc
    exact h hc.symm
  simp only [dbPut, dbGet, List.find?, hk]
  exact dbGet_dbDelete_ne s k k2 h

theorem enabled_key_ne (chat_id : Int) :
    ¬(enabled_key chat_id = enable_time_key chat_id) := by
  intro h
  have h2 := congrArg (fun t => t.data.length) h
  simp only [enabled_key, enable_time_key, group_key, String.data_append,
    List.length_append] at h2
  have e1 : (".enabled" : String).data.length = 8 := rfl
  have e2 : (".enable_time" : String).data.length = 12 := rfl
  rw [e1, e2] at h2
  omega

theorem purged_clear_group (s : Store) (group_id : Int) :
    purged (clear_group s group_id) group_id = true := by
  unfold purged clear_group
  rw [List.all_eq_true]
  intro kv hkv
  rw [List.mem_filter] at hkv
  obtain ⟨h1, h2⟩ := hkv
  rw [List.mem_filter] at h1
  simp only [h1.2, h2, Bool.and_self]

/-! ## Claim theorems -/

/-- Claim C7: every message whose sender participant record is the group
creator gets the verdict false from msg_is_suspicious, regardless of the
message content, timing, store contents or participation flags. -/
theorem C7_creator_exempt (s : Store) (msg : Msg) :
    msg_is_suspicious s msg Participant.creator = some false := by
  unfold msg_is_suspicious
  cases h : msg_data_is_suspicious msg <;> simp [h]

/-- Claim C8: msg_data_is_suspicious is false for outgoing or dateless
messages, and for incoming dated messages it is exactly
(forwarded and photo) or (suspicious entity or suspicious keyword). -/
theorem C8_msg_data_characterization (msg : Msg) :
    msg_data_is_suspicious msg =
      (!msg.out && msg.date.isSome &&
        ((msg.forward && msg.photo) ||
          (msg_has_suspicious_entity msg || msg_has_suspicious_keyword msg))) := by
  unfold msg_data_is_suspicious msg_content_suspicious
  cases hout : msg.out <;> cases hd : msg.date <;> simp [hout, hd]

/-- Claim C1: a message with suspicious data, sent by a non-creator whose
join-to-message delta is at most the threshold_time value read from the
root namespace (default 30), is judged suspicious. -/
theorem C1_within_join_window (s : Store) (msg : Msg) (p : Participant)
    (jd d : Int)
    (hdata : msg_data_is_suspicious msg = true)
    (hp : p.joinDate = some jd)
    (hd : msg.date = some d)
    (hdelta : d - jd ≤ getThreshold s) :
    msg_is_suspicious s msg p = some true := by
  cases p with
  | creator => simp [Participant.joinDate] at hp
  | admin r jd2 =>
    simp only [Participant.joinDate, Option.some.injEq] at hp
    subst hp
    simp [msg_is_suspicious, hdata, msg_timing_check, hd, hdelta]
  | member jd2 =>
    simp only [Participant.joinDate, Option.some.injEq] at hp
    subst hp
    simp [msg_is_suspicious, hdata, msg_timing_check, hd, hdelta]

/-- Witness for C1: concrete forwarded photo message 10 seconds after a
join, empty store, so the default threshold 30 applies. -/
theorem C1_witness :
    msg_is_suspicious ([] : Store) exMsgC1 (Participant.member 1000) = some true :=
  C1_within_join_window [] exMsgC1 (Participant.member 1000) 1000 1010
    (by decide) (by decide) (by decide) (by decide)

/-- Counterexample to claim C2 as stated: at the boundary where the
enable time equals the join timestamp (with suspicious data, a
non-creator sender, delta above the threshold and no participation
flag), msg_is_suspicious returns false, not true: the code requires the
join time to be strictly greater than the enable time. -/
theorem C2_counterexample :
    msg_data_is_suspicious exMsgC2 = true ∧
    Participant.member 1000 ≠ Participant.creator ∧
    (1100 : Int) - 1000 > getThreshold exStoreC2 ∧
    (Participant.member 1000).joinDate = some 1000 ∧
    getEnableTime exStoreC2 exMsgC2.chat_id = some 1000 ∧
    hasSpoken exStoreC2 exMsgC2.sender_id exMsgC2.chat_id = false ∧
    msg_is_suspicious exStoreC2 exMsgC2 (Participant.member 1000) = some false :=
  ⟨by decide, by decide, by decide, by decide, by decide, by decide, by decide⟩

/-- Claim C2 (amended): with suspicious data, a non-creator sender and a
delta above the threshold, the verdict is true when the enable time is
strictly less than the join timestamp and no participation flag exists
for the sender in the group. -/
theorem C2_first_message_rule (s : Store) (msg : Msg) (p : Participant)
    (jd d et : Int)
    (hdata : msg_data_is_suspicious msg = true)
    (hp : p.joinDate = some jd)
    (hd : msg.date = some d)
    (hdelta : getThreshold s < d - jd)
    (het : getEnableTime s msg.chat_id = some et)
    (hlt : et < jd)
    (hflag : hasSpoken s msg.sender_id msg.chat_id = false) :
    msg_is_suspicious s msg p = some true := by
  have hstep : msg_timing_check s msg jd = some true := by
    have h1 : ¬(d - jd ≤ getThreshold s) := by omega
    have h2 : jd > et := by omega
    simp [msg_timing_check, hd, het, hflag, h1, h2]
  cases p with
  | creator => simp [Participant.joinDate] at hp
  | admin r jd2 =>
    simp only [Participant.joinDate, Option.some.injEq] at hp
    subst hp
    simp [msg_is_suspicious, hdata, hstep]
  | member jd2 =>
    simp only [Participant.joinDate, Option.some.injEq] at hp
    subst hp
    simp [msg_is_suspicious, hdata, hstep]

/-- Witness for the amended C2: enable time 900, join 1000, message at
1100, no flag: first-message rule fires. -/
theorem C2_witness :
    msg_is_suspicious exStoreC2b exMsgC2 (Participant.member 1000) = some true :=
  C2_first_message_rule exStoreC2b exMsgC2 (Participant.member 1000) 1000 1100 900
    (by decide) (by decide) (by decide) (by decide) (by decide) (by decide)
    (by decide)

/-- Claim C3: when the username shape gates pass (length 10 to 12, first
character uppercase, rest lowercase), the user has no avatar, the
fetched profile has no bio, and the pronounceability test raises
(modelled by nons = none), profile_check_nonsense returns true: the user
is treated as suspicious, not exonerated.  The warning log is a side
effect outside the store model. -/
theorem C3_nostril_failure_suspicious (u : User) (un : String) (c0 : Char)
    (rest : List Char)
    (hu : u.username = some un)
    (hlen1 : 10 ≤ un.length) (hlen2 : un.length ≤ 12)
    (hdata : un.data = c0 :: rest)
    (hc0 : ascii_uppercase.data.contains c0 = true)
    (hrest : (rest.all fun c => ascii_lowercase.data.contains c) = true)
    (hphoto : u.photo = false) :
    profile_check_nonsense u false none = true := by
  have hne : un.isEmpty = false := by
    cases hb : un.isEmpty
    · rfl
    · rw [String.isEmpty_iff] at hb
      rw [hb] at hdata
      have h0 : ("" : String).data = [] := rfl
      rw [h0] at hdata
      exact List.noConfusion hdata
  unfold profile_check_nonsense
  simp only [hu]
  rw [hdata]
  simp [hne, hlen1, hlen2, hphoto]
  exact ⟨by simpa using hc0, by simpa using hrest⟩

/-- Witness for C3: the username Abcdefghij passes every gate and the
pronounceability test fails on it. -/
theorem C3_witness : profile_check_nonsense exUserC3 false none = true :=
  C3_nostril_failure_suspicious exUserC3 "Abcdefghij" 'A' "bcdefghij".data
    (by decide) (by decide) (by decide) (by decide) (by decide) (by decide)
    (by decide)

/-- Claim C9: profile_check_nonsense can only return true for a user
whose username is present with length in 10 to 12, first character an
uppercase letter, remaining characters all lowercase letters, no avatar
and no bio; equivalently, it returns false whenever any of those gates
fails. -/
theorem C9_nonsense_gates (u : User) (about : Bool) (nons : Option Bool)
    (h : profile_check_nonsense u about nons = true) :
    ∃ un c0 rest, u.username = some un ∧
      10 ≤ un.length ∧ un.length ≤ 12 ∧
      un.data = c0 :: rest ∧
      ascii_uppercase.data.contains c0 = true ∧
      (rest.all fun c => ascii_lowercase.data.contains c) = true ∧
      u.photo = false ∧ about = false := by
  unfold profile_check_nonsense at h
  cases hu : u.username with
  | none => rw [hu] at h; simp at h
  | some un =>
    simp only [hu] at h
    by_cases hg : (!un.isEmpty && (decide (10 ≤ un.length) && decide (un.length ≤ 12))) = true
    · rw [if_pos hg] at h
      simp only [Bool.and_eq_true, Bool.not_eq_eq_eq_not, Bool.not_true,
        decide_eq_true_eq] at hg
      cases hdata : un.data with
      | nil => rw [hdata] at h; simp at h
      | cons c0 rest =>
        rw [hdata] at h
        simp at h
        exact ⟨un, c0, rest, rfl, hg.2.1, hg.2.2, hdata, by simpa using h.1,
          by simpa using h.2.1, h.2.2.1, h.2.2.2.1⟩
    · rw [if_neg hg] at h; simp at h

/-- Witness for C9: a user for whom the check does return true, so every
gate is shown to pass. -/
theorem C9_witness :
    ∃ un c0 rest, exUserC3.username = some un ∧
      10 ≤ un.length ∧ un.length ≤ 12 ∧
      un.data = c0 :: rest ∧
      ascii_uppercase.data.contains c0 = true ∧
      (rest.all fun c => ascii_lowercase.data.contains c) = true ∧
      exUserC3.photo = false ∧ false = false :=
  C9_nonsense_gates exUserC3 false (some true) (by decide)

/-- Claim C10: profile_check_crypto accesses the first name
unconditionally, so for a user with no first name it yields an error
instead of a verdict, and user_is_suspicious propagates that error
whenever the nonsense check has not already short-circuited to true. -/
theorem C10_crypto_needs_first_name (u : User) (h : u.first_name = none) :
    profile_check_crypto u =
      Except.error "AttributeError: NoneType object has no attribute lower" ∧
    ∀ about nons, profile_check_nonsense u about nons = false →
      user_is_suspicious u about nons =
        Except.error "AttributeError: NoneType object has no attribute lower" := by
  have hc : profile_check_crypto u =
      Except.error "AttributeError: NoneType object has no attribute lower" := by
    unfold profile_check_crypto
    rw [h]
  refine ⟨hc, ?_⟩
  intro about nons hn
  unfold user_is_suspicious
  rw [hn, hc]
  simp

/-- Witness for C10: a user with no username and no first name: the
crypto check errors and user_is_suspicious errors with it. -/
theorem C10_witness :
    profile_check_crypto exUserC10 =
      Except.error "AttributeError: NoneType object has no attribute lower" ∧
    user_is_suspicious exUserC10 false none =
      Except.error "AttributeError: NoneType object has no attribute lower" :=
  ⟨(C10_crypto_needs_first_name exUserC10 rfl).1,
    (C10_crypto_needs_first_name exUserC10 rfl).2 false none (by decide)⟩

/-- Claim C4: toggling on in a supergroup with the feature currently off
succeeds exactly for a creator or an admin with both the delete-messages
and ban-users rights, in which case enabled = true and enable_time = now
are persisted; otherwise an explanatory string is returned and the store
is unchanged. -/
theorem C4_toggle_on (s : Store) (m : CmdMsg) (p : Participant) (now : Int)
    (hg : m.is_group = true) (hc : m.is_channel = true)
    (hoff : boolGetD (dbGet s (enabled_key m.chat_id)) false = false) :
    (bot_can_enable p = true →
      (cmd_antibot s m p now).1 = "Antibot is now **enabled** in this group." ∧
      dbGet (cmd_antibot s m p now).2 (enabled_key m.chat_id) =
        some (DBVal.b true) ∧
      dbGet (cmd_antibot s m p now).2 (enable_time_key m.chat_id) =
        some (DBVal.i now)) ∧
    (bot_can_enable p = false →
      (cmd_antibot s m p now).2 = s ∧
      ((cmd_antibot s m p now).1 =
          "__Antibot requires the **Delete Messages** and **Ban users** permissions.__" ∨
        (cmd_antibot s m p now).1 =
          "__I must be an admin with the **Delete Messages** and **Ban users** permissions for antibot to work.__")) := by
  constructor
  · intro hperm
    have hval : (cmd_antibot s m p now).1 =
        "Antibot is now **enabled** in this group." ∧
        (cmd_antibot s m p now).2 =
          dbPut (dbPut s (enabled_key m.chat_id) (DBVal.b true))
            (enable_time_key m.chat_id) (DBVal.i now) := by
      cases p with
      | creator => simp [cmd_antibot, hg, hc, hoff]
      | admin r d =>
        simp only [bot_can_enable, Bool.and_eq_true] at hperm
        simp [cmd_antibot, hg, hc, hoff, hperm.1, hperm.2]
      | member d => simp [bot_can_enable] at hperm
    refine ⟨hval.1, ?_, ?_⟩
    · rw [hval.2, dbGet_dbPut_ne _ _ _ _ (enabled_key_ne m.chat_id),
        dbGet_dbPut_self]
    · rw [hval.2, dbGet_dbPut_self]
  · intro hperm
    cases p with
    | creator => simp [bot_can_enable] at hperm
    | admin r d =>
      cases hdm : r.delete_messages <;> cases hbu : r.ban_users
      · exact ⟨by simp [cmd_antibot, hg, hc, hoff, hdm, hbu],
          Or.inl (by simp [cmd_antibot, hg, hc, hoff, hdm, hbu])⟩
      · exact ⟨by simp [cmd_antibot, hg, hc, hoff, hdm, hbu],
          Or.inl (by simp [cmd_antibot, hg, hc, hoff, hdm, hbu])⟩
      · exact ⟨by simp [cmd_antibot, hg, hc, hoff, hdm, hbu],
          Or.inl (by simp [cmd_antibot, hg, hc, hoff, hdm, hbu])⟩
      · simp [bot_can_enable, hdm, hbu] at hperm
    | member d =>
      exact ⟨by simp [cmd_antibot, hg, hc, hoff],
        Or.inr (by simp [cmd_antibot, hg, hc, hoff])⟩

/-- Witness for C4: empty store, group 5, the bot is the creator. -/
theorem C4_witness :
    (cmd_antibot ([] : Store) exCmdMsg Participant.creator 2000).1 =
      "Antibot is now **enabled** in this group." ∧
    dbGet (cmd_antibot ([] : Store) exCmdMsg Participant.creator 2000).2
      (enabled_key exCmdMsg.chat_id) = some (DBVal.b true) ∧
    dbGet (cmd_antibot ([] : Store) exCmdMsg Participant.creator 2000).2
      (enable_time_key exCmdMsg.chat_id) = some (DBVal.i 2000) :=
  (C4_toggle_on [] exCmdMsg Participant.creator 2000 rfl rfl (by decide)).1 rfl

/-- Claim C5: after a toggle-off in an enabled supergroup, and after the
bot itself leaves an enabled group, every group-namespace key under the
group prefix and every users-namespace participation flag referencing
the group id are gone from the store. -/
theorem C5_disable_and_departure_purge (s : Store) (group_id : Int) :
    (∀ m : CmdMsg, ∀ p now, m.chat_id = group_id → m.is_group = true →
      m.is_channel = true →
      boolGetD (dbGet s (enabled_key group_id)) false = true →
      purged (cmd_antibot s m p now).2 group_id = true) ∧
    (∀ a : ChatAction, ∀ bot_uid, a.chat_id = group_id → a.user_left = true →
      a.user_id = bot_uid → is_enabled s a.is_group a.chat_id = true →
      purged (on_chat_action_state s a bot_uid) group_id = true) := by
  constructor
  · intro m p now hcid hg hc hon
    have h2 : (cmd_antibot s m p now).2 = clear_group s group_id := by
      simp [cmd_antibot, hg, hc, hcid, hon]
    rw [h2]
    exact purged_clear_group s group_id
  · intro a bot_uid hcid hl huid hen
    rw [hcid] at hen
    have h2 : on_chat_action_state s a bot_uid =
        clear_group (dbDelete s (flag_key a.user_id a.chat_id)) group_id := by
      simp [on_chat_action_state, hl, hen, huid, hcid]
    rw [h2]
    exact purged_clear_group _ group_id

/-- Witness for C5: a populated store for group 5, first toggled off by
the creator, then independently purged by the bot (uid 42) leaving. -/
theorem C5_witness :
    purged (cmd_antibot exStoreC5 exCmdMsg Participant.creator 2000).2 5 = true ∧
    purged (on_chat_action_state exStoreC5 exActionC5 42) 5 = true :=
  ⟨(C5_disable_and_departure_purge exStoreC5 5).1 exCmdMsg Participant.creator 2000
      rfl rfl rfl (by decide),
    (C5_disable_and_departure_purge exStoreC5 5).2 exActionC5 42 rfl rfl rfl
      (by decide)⟩

/-- Claim C6: for an inbound message in a group with detection enabled, a
suspicious verdict produces a take-action outcome for the sender with no
store write, and a non-suspicious verdict persists the participation
flag for (sender, group). -/
theorem C6_dispatch (s : Store) (msg : Msg) (p : Participant)
    (hen : is_enabled s msg.is_group msg.chat_id = true) :
    (msg_is_suspicious s msg p = some true →
      (on_message s msg p).1 = MsgOutcome.action msg.sender_id ∧
      (on_message s msg p).2 = s) ∧
    (msg_is_suspicious s msg p = some false →
      (on_message s msg p).1 = MsgOutcome.spoke ∧
      dbGet (on_message s msg p).2 (flag_key msg.sender_id msg.chat_id) =
        some (DBVal.b true)) := by
  constructor
  · intro hsus
    constructor
    · simp [on_message, hen, hsus]
    · simp [on_message, hen, hsus]
  · intro hsus
    constructor
    · simp [on_message, hen, hsus]
    · have h2 : (on_message s msg p).2 =
          dbPut s (flag_key msg.sender_id msg.chat_id) (DBVal.b true) := by
        simp [on_message, hen, hsus]
      rw [h2, dbGet_dbPut_self]

/-- Witness for C6: suspicious message (forwarded photo 10 seconds after
join) in enabled group 5: take-action on sender 7 and no store write. -/
theorem C6_witness :
    (on_message exStoreC2 exMsgC2 (Participant.member 1090)).1 =
      MsgOutcome.action exMsgC2.sender_id ∧
    (on_message exStoreC2 exMsgC2 (Participant.member 1090)).2 = exStoreC2 :=
  (C6_dispatch exStoreC2 exMsgC2 (Participant.member 1090) (by decide)).1
    (by decide)

end Antibot
